import Mathlib

/-!
# containerize-py: a shallow embedding of `main.go`

Go strings are modelled by Lean `String`s (sequences of Unicode code points; the
program only ever handles text).  The operating system is modelled by a record of
oracles (`World`): what `os.Stat` answers for a path, what running an interpreter
with `--version` gives, whether `os.Create` succeeds, and the contents of files.
`filepath.Join`, `os.PathSeparator` and the link-time `version` variable are
parameters (`Env`).
-/

namespace ContainerizePy

/-! ## String helpers standing for the Go standard library calls used by the program -/

/-- The function `strings.Split(s, sep)` for a one-character separator, on character lists:
all the pieces between occurrences of `sep`; the result is never empty. -/
def splitOn (sep : Char) : List Char → List (List Char)
  | [] => [[]]
  | c :: cs =>
    if c = sep then [] :: splitOn sep cs
    else
      match splitOn sep cs with
      | [] => [[c]]
      | l :: ls => (c :: l) :: ls

/-- The function `strings.Split(s, " ")`-style split of a string on one character. -/
def split (s : String) (sep : Char) : List String :=
  (splitOn sep s.data).map String.mk

/-- The lines of a text: its pieces between newline characters. -/
def lines (s : String) : List String := split s '\n'

/-- The predicate `unicode.IsSpace`: the Latin-1 spaces and the other code points with the
Unicode White_Space property. -/
def isSpace (c : Char) : Bool :=
  let n := c.toNat
  n = 0x09 || n = 0x0A || n = 0x0B || n = 0x0C || n = 0x0D || n = 0x20 || n = 0x85 || n = 0xA0
    || n = 0x1680 || (0x2000 ≤ n && n ≤ 0x200A) || n = 0x2028 || n = 0x2029 || n = 0x202F
    || n = 0x205F || n = 0x3000

/-- The function `strings.TrimSpace`: drop leading and trailing white space. -/
def trimSpace (s : String) : String :=
  ⟨((s.data.dropWhile isSpace).reverse.dropWhile isSpace).reverse⟩

/-! ## Constants of `main.go` -/

def DEFAULT_IMAGE : String := "alpine"

def CONTAINER_FILE : String := "Containerfile"

def CONTAINER_FILE_CONTENT : String :=
  "# Generated with containerize-py \x7b\x7b.Version\x7d\x7d\n" ++
  "FROM python:\x7b\x7b.PythonVersion\x7d\x7d-\x7b\x7b.FromImage\x7d\x7d\n" ++
  "WORKDIR /app\n" ++
  "COPY \x7b\x7b.SourcePath\x7d\x7d .\n" ++
  "RUN pip install --no-cache-dir -r requirements.txt\n" ++
  "CMD [\"python3\", \"main.py\"]\n"

def IGNORE_FILE : String := ".containerignore"

def IGNORE_FILE_CONTENT : String :=
  "# Generated with containerize-py \x7b\x7b.Version\x7d\x7d\n" ++
  "# Virtual enviroments\n" ++
  ".venv/\n" ++
  "venv/\n" ++
  ".env/\n" ++
  "env/\n" ++
  "\n" ++
  "# Cache\n" ++
  "__pycache__/\n" ++
  "*.pyc\n" ++
  "*.pyo\n" ++
  "\n" ++
  "# \n" ++
  "\x7b\x7b.ContainerFile\x7d\x7d\n" ++
  "\x7b\x7b.IgnoreFile\x7d\x7d\n"

def NOPARAM_MSG : String :=
  "containerize-py \x7b\x7b.Version\x7d\x7d\n" ++
  "Creates the \x7b\x7b.ContainerFile\x7d\x7d and \x7b\x7b.IgnoreFile\x7d\x7d from a python project.\n" ++
  "This files can be used to create/launch a Container with docker or podman.\n" ++
  "Syntax:\n" ++
  "   containerize-py [--from=python_image] <project_dir> [output_dir]\n" ++
  "\n" ++
  "--from=python_image : By default the image is alpine. There are more available, some are:\n" ++
  " \n" ++
  "  · alpine: The lighest, but can lead to compatibility issues with glibc libraries dependent. Popular libraries (e.g., pandas, numpy, scipy) may need manual compilation due to native dependencies.\n" ++
  "  · slim-bookworm: Good for new projects.\n" ++
  "  · slim-bullseye: For production projects requiring stability.\n" ++
  "  · slim-buster: Is end of support. Maybe good for some very old projects.\n" ++
  "\n" ++
  "<project_dir> : Your python project location\n" ++
  "\n" ++
  "[output_dir]  : Container files location. If empty use same place as project.\n" ++
  "\n" ++
  "If there is any virtual enviroment directory the python version of that enviroment will be used, if not, the system version instead.\n"

def NOREQUIREMENTS_MSG : String :=
  "requirements.txt not found. \n" ++
  "You can create it in 2 ways:\n" ++
  "1. Using pipreqs (recommended)\n" ++
  "  pipreqs /path/your_project\n" ++
  "\n" ++
  "2. Using pip freeze (the Virtual Enviroment must be active):\n" ++
  "  pip freeze > requirements.txt\n"

def NOMAINPY_MSG : String :=
  "main.py not found.\n" ++
  "It\x27s mandatory to use this file to launch your project.\n"

/-- The record `Containerize`: the build configuration handed to the templates. -/
structure Containerize where
  Version : String
  SourcePath : String
  OutputPath : String
  PythonVersion : String
  FromImage : String
  ContainerFile : String
  IgnoreFile : String
  deriving DecidableEq, Repr

/-! ## The fragment of `text/template` the program uses

The three templates contain literal text and actions of the form `{{.Field}}` only. -/

/-- A parsed template is a sequence of literal texts and field references. -/
inductive Node where
  | text (s : String)
  | field (name : String)
  deriving DecidableEq, Repr

/-- The characters of a Go identifier. -/
def isIdentChar (c : Char) : Bool := c.isAlphanum || c = '_'

/-- The field named by the body of an action: optional blanks, a dot, an identifier, optional
blanks.  Any other action is outside the modelled fragment. -/
def fieldOf (body : List Char) : Option String :=
  match ((body.dropWhile (· = ' ')).reverse.dropWhile (· = ' ')).reverse with
  | '.' :: name => if name ≠ [] ∧ name.all isIdentChar then some ⟨name⟩ else none
  | _ => none

/-- Put the pending literal text (accumulated in reverse) in front of the nodes. -/
def flushText (acc : List Char) (ns : List Node) : List Node :=
  if acc = [] then ns else Node.text ⟨acc.reverse⟩ :: ns

/-- The states of the scanner: in literal text, in literal text after one opening brace, inside
an action, inside an action after one closing brace. -/
inductive Mode where
  | text
  | open1
  | action
  | close1
  deriving DecidableEq, Repr

/-- The scanner of `Parse`: literal text runs up to the next `{{`, an action up to the next
`}}`; `acc` is what has been read (in reverse) of the current literal or action. -/
def parseNodes : Mode → List Char → List Char → Option (List Node)
  | Mode.text, acc, [] => some (flushText acc [])
  | Mode.open1, acc, [] => some (flushText ('{' :: acc) [])
  | Mode.action, _, [] => none
  | Mode.close1, _, [] => none
  | Mode.text, acc, c :: rest =>
    if c = '{' then parseNodes Mode.open1 acc rest else parseNodes Mode.text (c :: acc) rest
  | Mode.open1, acc, c :: rest =>
    if c = '{' then (parseNodes Mode.action [] rest).map (flushText acc)
    else parseNodes Mode.text (c :: '{' :: acc) rest
  | Mode.action, acc, c :: rest =>
    if c = '}' then parseNodes Mode.close1 acc rest else parseNodes Mode.action (c :: acc) rest
  | Mode.close1, acc, c :: rest =>
    if c = '}' then
      match fieldOf acc.reverse, parseNodes Mode.text [] rest with
      | some f, some ns => some (Node.field f :: ns)
      | _, _ => none
    else parseNodes Mode.action (c :: '}' :: acc) rest

/-- The call `template.New(name).Parse(text)`; `none` is a parse error. -/
def parse (text : String) : Option (List Node) := parseNodes Mode.text [] text.data

/-- The value of the field `.name` of the configuration, if there is such a field. -/
def Containerize.lookup (c : Containerize) (name : String) : Option String :=
  if name = "Version" then some c.Version
  else if name = "SourcePath" then some c.SourcePath
  else if name = "OutputPath" then some c.OutputPath
  else if name = "PythonVersion" then some c.PythonVersion
  else if name = "FromImage" then some c.FromImage
  else if name = "ContainerFile" then some c.ContainerFile
  else if name = "IgnoreFile" then some c.IgnoreFile
  else none

/-- The method `t.Execute(w, c)` on a parsed template: the text written to `w`, and the error
if a field cannot be evaluated (the text before the failing action has been written). String
fields are printed verbatim. -/
def execute : List Node → Containerize → String × Option String
  | [], _ => ("", none)
  | Node.text s :: ns, c =>
    let r := execute ns c
    (s ++ r.1, r.2)
  | Node.field f :: ns, c =>
    match c.lookup f with
    | some v =>
      let r := execute ns c
      (v ++ r.1, r.2)
    | none => ("", some ("can\x27t evaluate field " ++ f ++ " in type main.Containerize"))

/-! ## The operating system -/

/-- What `os.Stat(path)` answers: file information (is it a directory), the error
`os.ErrNotExist`, or another error (permission denied on a parent directory, name too long);
in the last case `present` tells whether the path names an existing file all the same. -/
inductive StatResult where
  | info (isDir : Bool)
  | notExist
  | failed (present : Bool)
  deriving DecidableEq, Repr

/-- What `cmd.Run()` gives for `path --version`: an error (not found, non-zero exit), or the
combined standard output and standard error of a successful run. -/
inductive RunResult where
  | failed (err : String)
  | output (out : String)
  deriving DecidableEq, Repr

/-- The state of the host as far as the program can observe and change it.  `createErr path` is
the error of `os.Create(path)` if it fails; `writeFault path = some (n, e)` makes the write of the
character at offset `n` of a file fail with `e`; `content` holds the contents of files.  Paths
are compared as strings, and running an interpreter does not change the state. -/
structure World where
  stat : String → StatResult
  run : String → RunResult
  createErr : String → Option String
  writeFault : String → Option (Nat × String)
  content : String → Option String

/-- What the build and the platform fix: the package variable `version` (set when linking,
`"[unknown]"` otherwise), `os.PathSeparator`, and `filepath.Join`. -/
structure Env where
  version : String
  pathSeparator : Char
  join : List String → String

/-- The system calls a run makes, in order. -/
inductive Event where
  | stat (path : String)
  | exec (path : String)
  | create (path : String)
  deriving DecidableEq, Repr

/-- A Go `(string, error)` result, or a run-time panic. -/
inductive Result where
  | ok (v : String)
  | err (msg : String)
  | panic (msg : String)
  deriving DecidableEq, Repr

/-- How the process ends: `os.Exit(code)` (or return from `main`, code 0), or a run-time panic. -/
inductive Outcome where
  | exited (code : Nat)
  | panicked (msg : String)
  deriving DecidableEq, Repr

/-- All that a run of the program does: how it ends, what it printed on standard output and on
standard error, the system calls it made, and the state it leaves. -/
structure Run where
  outcome : Outcome
  stdout : String
  stderr : String
  trace : List Event
  world : World

/-- The command line after `flag.Parse()` has returned: the value given to `--from`, if it was
given, and the positional arguments `flag.Args()`. -/
structure Invocation where
  fromFlag : Option String
  args : List String
  deriving DecidableEq, Repr

/-- The state after `os.Create(path)` succeeded and `text` was written to the file. -/
def World.setFile (w : World) (path text : String) : World :=
  { w with
    stat := fun p => if p = path then StatResult.info false else w.stat p
    content := fun p => if p = path then some text else w.content p }

/-! ## The functions of `main.go` -/

/-- The function `writeFileWithTemplate`: create (truncate) the file, execute the template into
it; returns the error, if any, and the new state. -/
def writeFileWithTemplate (w : World) (path : String) (t : List Node) (ttags : Containerize) :
    Option String × World :=
  match w.createErr path with
  | some e => (some e, w)
  | none =>
    let r := execute t ttags
    match w.writeFault path with
    | some (n, e) =>
      if n < r.1.length then (some e, w.setFile path (r.1.take n))
      else (r.2, w.setFile path r.1)
    | none => (r.2, w.setFile path r.1)

/-- The function `isDirectory`. -/
def isDirectory (w : World) (path : String) : Bool :=
  match w.stat path with
  | StatResult.info d => d
  | _ => false

/-- The function `fileExists`: false only when `os.Stat` reports `os.ErrNotExist`. -/
def fileExists (w : World) (filename : String) : Bool :=
  match w.stat filename with
  | StatResult.notExist => false
  | _ => true

/-- The function `execPythonVersion`: run the interpreter, trim the output, split it on spaces
and take the piece of index 1 (a panic if there is none).  Also returns the system calls made. -/
def execPythonVersion (w : World) (pythonExecPath : String) : Result × List Event :=
  match w.run pythonExecPath with
  | RunResult.failed e =>
    (Result.err ("failed to execute " ++ pythonExecPath ++ ": " ++ e), [Event.exec pythonExecPath])
  | RunResult.output out =>
    let result := trimSpace out
    let pieces := split result ' '
    match pieces[1]? with
    | some v => (Result.ok v, [Event.exec pythonExecPath])
    | none =>
      (Result.panic ("runtime error: index out of range [1] with length " ++ toString pieces.length),
        [Event.exec pythonExecPath])

/-- The interpreter path tried for one virtual-environment directory name. -/
def pythonExecPathOf (env : Env) (projectPath envDir : String) : String :=
  let venvPath := env.join [projectPath, envDir]
  if env.pathSeparator = '\\' then env.join [venvPath, "Scripts", "python.exe"]
  else env.join [venvPath, "bin", "python"]

/-- The loop of `getPythonVersion` over the remaining directory names, followed by the statement
after the loop. -/
def getPythonVersionLoop (env : Env) (w : World) (projectPath : String) :
    List String → Result × List Event
  | [] => execPythonVersion w "python"
  | envDir :: rest =>
    let pythonExecPath := pythonExecPathOf env projectPath envDir
    match w.stat pythonExecPath with
    | StatResult.info _ =>
      let r := execPythonVersion w pythonExecPath
      (r.1, Event.stat pythonExecPath :: r.2)
    | _ =>
      let r := getPythonVersionLoop env w projectPath rest
      (r.1, Event.stat pythonExecPath :: r.2)

/-- The slice `envDirs` of `getPythonVersion`. -/
def envDirs : List String := ["venv", ".venv", "env", ".env"]

/-- The function `getPythonVersion`. -/
def getPythonVersion (env : Env) (w : World) (projectPath : String) : Result × List Event :=
  getPythonVersionLoop env w projectPath envDirs

/-- The configuration `cont` as `main` first builds it. -/
def initialCont (env : Env) : Containerize :=
  { Version := env.version, SourcePath := "", OutputPath := "", PythonVersion := "",
    FromImage := "", ContainerFile := CONTAINER_FILE, IgnoreFile := IGNORE_FILE }

/-- The configuration after the positional arguments and the flag have been stored in it;
`none` when the number of positional arguments is not 1 or 2. -/
def resolveArgs (env : Env) (inv : Invocation) : Option Containerize :=
  let cont := initialCont env
  let fromFlag := inv.fromFlag.getD "alpine"
  let args := inv.args
  if args.length < 1 ∨ args.length > 2 then none
  else
    let sourcePath := args.getD 0 ""
    let outputPath := if args.length = 2 then args.getD 1 "" else sourcePath
    some { cont with SourcePath := sourcePath, OutputPath := outputPath, FromImage := fromFlag }

/-- The text written when the template `text` is parsed and executed on `c`; `none` when the
template does not parse. -/
def render (text : String) (c : Containerize) : Option String :=
  (parse text).map fun t => (execute t c).1

/-- The function `flag.Usage` installed by `main`: the usage template executed on standard
error. -/
def usage (env : Env) : Option String :=
  render NOPARAM_MSG (initialCont env)

/-- Does the path name an existing file or directory in the state `w`? -/
def pathExists (w : World) (path : String) : Bool :=
  match w.stat path with
  | StatResult.info _ => true
  | StatResult.notExist => false
  | StatResult.failed present => present

/-- Does `os.Stat(path)` succeed (`err == nil`)? -/
def statOk (w : World) (path : String) : Bool :=
  match w.stat path with
  | StatResult.info _ => true
  | _ => false

/-- The interpreter the specification says is queried: the interpreter path under the first of
`venv`, `.venv`, `env`, `.env` for which that path exists, else the bare command `python`. -/
def specInterpreter (env : Env) (w : World) (projectPath : String) : String :=
  let interp := fun (dir : String) =>
    if env.pathSeparator = '\\' then env.join [env.join [projectPath, dir], "Scripts", "python.exe"]
    else env.join [env.join [projectPath, dir], "bin", "python"]
  if statOk w (interp "venv") then interp "venv"
  else if statOk w (interp ".venv") then interp ".venv"
  else if statOk w (interp "env") then interp "env"
  else if statOk w (interp ".env") then interp ".env"
  else "python"

/-- The interpreter runs among the system calls of a trace. -/
def execsOf (tr : List Event) : List String :=
  tr.filterMap fun e =>
    match e with
    | Event.exec p => some p
    | _ => none

/-- A Unix host with an unset tool version, and a join that puts a slash between the elements
(what `filepath.Join` does on the clean relative paths of the examples). -/
def unixEnv : Env := ⟨"[unknown]", '/', fun l => "/".intercalate l⟩

/-- A state in which `proj` is a directory, the paths in `files` are regular files and nothing
else exists, every interpreter run gives `r`, every write succeeds, and no file content is
recorded yet. -/
def projectWorld (files : List String) (r : RunResult) : World :=
  { stat := fun p =>
      if p = "proj" then StatResult.info true
      else if p ∈ files then StatResult.info false
      else StatResult.notExist
    run := fun _ => r
    createErr := fun _ => none
    writeFault := fun _ => none
    content := fun _ => none }

/-- The state `projectWorld` for a project that holds `requirements.txt` and `main.py` and no
virtual environment. -/
def sampleWorld (r : RunResult) : World :=
  projectWorld ["proj/requirements.txt", "proj/main.py"] r

/-- The usage message for a tool version, written out: the tool name and version, what the
tool creates, the command syntax, the base images, the two directories, and where the Python
version comes from. -/
def usageText (version : String) : String :=
  "containerize-py " ++ version ++
  ("\nCreates the Containerfile and .containerignore from a python project.\n" ++
  "This files can be used to create/launch a Container with docker or podman.\n" ++
  "Syntax:\n" ++
  "   containerize-py [--from=python_image] <project_dir> [output_dir]\n" ++
  "\n" ++
  "--from=python_image : By default the image is alpine. There are more available, some are:\n" ++
  " \n" ++
  "  · alpine: The lighest, but can lead to compatibility issues with glibc libraries dependent. Popular libraries (e.g., pandas, numpy, scipy) may need manual compilation due to native dependencies.\n" ++
  "  · slim-bookworm: Good for new projects.\n" ++
  "  · slim-bullseye: For production projects requiring stability.\n" ++
  "  · slim-buster: Is end of support. Maybe good for some very old projects.\n" ++
  "\n" ++
  "<project_dir> : Your python project location\n" ++
  "\n" ++
  "[output_dir]  : Container files location. If empty use same place as project.\n" ++
  "\n" ++
  "If there is any virtual enviroment directory the python version of that enviroment will be used, if not, the system version instead.\n")

/-- The usage-error path: exit status 1, exactly the usage message on standard error, nothing on
standard output, no system call (so no check of the file system) and the state left as it
was. -/
def usageErrorPath (env : Env) (w : World) (r : Run) : Prop :=
  r.outcome = Outcome.exited 1 ∧ r.stderr = usageText env.version ∧ r.stdout = "" ∧
    r.trace = [] ∧ r.world = w

/-- A state in which `proj` and `out` are directories and `proj` cannot be searched: `os.Stat`
of every path the program consults under `proj` fails with a permission error.  Of these paths
only those in `present` name existing files.  Every interpreter run gives `r` and every write
succeeds. -/
def unsearchableWorld (present : List String) (r : RunResult) : World :=
  { stat := fun p =>
      if p = "proj" ∨ p = "out" then StatResult.info true
      else if p ∈ ["proj/requirements.txt", "proj/main.py", "proj/venv/bin/python",
          "proj/.venv/bin/python", "proj/env/bin/python", "proj/.env/bin/python"] then
        StatResult.failed (decide (p ∈ present))
      else StatResult.notExist
    run := fun _ => r
    createErr := fun _ => none
    writeFault := fun _ => none
    content := fun _ => none }

/-- The paths whose `os.Stat` answer a run with configuration `cont` consults. -/
def probedPaths (env : Env) (cont : Containerize) : List String :=
  [cont.SourcePath, cont.OutputPath, env.join [cont.SourcePath, "requirements.txt"],
    env.join [cont.SourcePath, "main.py"]] ++
    envDirs.map (pythonExecPathOf env cont.SourcePath)

/-- The paths of the two files a run with configuration `cont` writes. -/
def writtenPaths (env : Env) (cont : Containerize) : List String :=
  [env.join [cont.OutputPath, cont.IgnoreFile], env.join [cont.OutputPath, cont.ContainerFile]]

/-- A configuration whose tool version spans two lines. -/
def twoLineVersionCont : Containerize :=
  { Version := "1.0\nbeta", SourcePath := "proj", OutputPath := "proj", PythonVersion := "3.11.4",
    FromImage := "alpine", ContainerFile := CONTAINER_FILE, IgnoreFile := IGNORE_FILE }

/-- A configuration as a run with the default image and Python 3.11.4 builds it. -/
def sampleCont : Containerize :=
  { Version := "[unknown]", SourcePath := "proj", OutputPath := "proj", PythonVersion := "3.11.4",
    FromImage := "alpine", ContainerFile := CONTAINER_FILE, IgnoreFile := IGNORE_FILE }

/-- The function `main`, run on the parsed command line `inv` in the state `w`. -/
def main (env : Env) (inv : Invocation) (w : World) : Run :=
  match resolveArgs env inv with
  | none =>
    match usage env with
    | none => ⟨Outcome.panicked "template: parse error", "", "", [], w⟩
    | some text => ⟨Outcome.exited 1, "", text, [], w⟩
  | some cont =>
    let out := "Checking directories...\n"
    let tr := [Event.stat cont.SourcePath]
    if isDirectory w cont.SourcePath = false then
      ⟨Outcome.exited 1, out, cont.SourcePath ++ " is not a directory.\n", tr, w⟩
    else
    let tr := tr ++ [Event.stat cont.OutputPath]
    if isDirectory w cont.OutputPath = false then
      ⟨Outcome.exited 1, out, cont.OutputPath ++ " is not a directory.\n", tr, w⟩
    else
    let out := out ++ "Checking for requirements.txt...\n"
    let requirements := env.join [cont.SourcePath, "requirements.txt"]
    let tr := tr ++ [Event.stat requirements]
    if fileExists w requirements = false then
      ⟨Outcome.exited 1, out, NOREQUIREMENTS_MSG, tr, w⟩
    else
    let out := out ++ "Checking for requirements.txt...\n"
    let mainPy := env.join [cont.SourcePath, "main.py"]
    let tr := tr ++ [Event.stat mainPy]
    if fileExists w mainPy = false then
      ⟨Outcome.exited 1, out, NOMAINPY_MSG, tr, w⟩
    else
    let out := out ++ "Getting Python project version...\n"
    let pv := getPythonVersion env w cont.SourcePath
    let tr := tr ++ pv.2
    match pv.1 with
    | Result.panic m => ⟨Outcome.panicked m, out, "", tr, w⟩
    | Result.err e =>
      ⟨Outcome.exited 1, out, "Unable to get Python version: " ++ e ++ "\n", tr, w⟩
    | Result.ok v =>
      let cont := { cont with PythonVersion := v }
      let out := out ++ "Writing Ignore File...\n"
      match parse IGNORE_FILE_CONTENT with
      | none => ⟨Outcome.panicked "template: parse error", out, "", tr, w⟩
      | some t =>
        let path := env.join [cont.OutputPath, cont.IgnoreFile]
        let tr := tr ++ [Event.create path]
        let r := writeFileWithTemplate w path t cont
        match r.1 with
        | some e => ⟨Outcome.exited 1, out, "Error " ++ e ++ "\n", tr, r.2⟩
        | none =>
          let out := out ++ "Writing Container File...\n"
          match parse CONTAINER_FILE_CONTENT with
          | none => ⟨Outcome.panicked "template: parse error", out, "", tr, r.2⟩
          | some t2 =>
            let path2 := env.join [cont.OutputPath, cont.ContainerFile]
            let tr := tr ++ [Event.create path2]
            let r2 := writeFileWithTemplate r.2 path2 t2 cont
            match r2.1 with
            | some e => ⟨Outcome.exited 1, out, "Error " ++ e ++ "\n", tr, r2.2⟩
            | none =>
              let out := out ++ "Done!.\n" ++
                "Check that no files containing sensitive information (passwords, API keys, etc.) are present in your project. If there are any, make sure to include them in "
                ++ cont.IgnoreFile ++ "\n"
              ⟨Outcome.exited 0, out, "", tr, r2.2⟩

/-! ## Lemmas on splitting -/

theorem splitOn_ne_nil (sep : Char) (l : List Char) : splitOn sep l ≠ [] := by
  induction l with
  | nil => simp [splitOn]
  | cons c cs ih =>
    unfold splitOn
    split
    · simp
    · split <;> simp

theorem splitOn_append_sep (sep : Char) (a b : List Char) :
    splitOn sep (a ++ sep :: b) = splitOn sep a ++ splitOn sep b := by
  induction a with
  | nil => simp [splitOn]
  | cons c cs ih =>
    by_cases h : c = sep
    · simp [splitOn, h, ih]
    · have hne := splitOn_ne_nil sep cs
      rw [List.cons_append, splitOn, if_neg h, ih, splitOn, if_neg h]
      cases hs : splitOn sep cs with
      | nil => exact absurd hs hne
      | cons l ls => simp

theorem splitOn_of_not_mem (sep : Char) (a : List Char) (h : sep ∉ a) :
    splitOn sep a = [a] := by
  induction a with
  | nil => simp [splitOn]
  | cons c cs ih =>
    have hc : c ≠ sep := fun e => h (by simp [e])
    have hcs : sep ∉ cs := fun e => h (by simp [e])
    simp [splitOn, hc, ih hcs]

theorem lines_append_nl (a b : String) : lines (a ++ "\n" ++ b) = lines a ++ lines b := by
  have h : (a ++ "\n" ++ b).data = a.data ++ '\n' :: b.data := by
    simp [String.data_append]
  simp [lines, split, h, splitOn_append_sep]

theorem lines_of_not_mem (a : String) (h : '\n' ∉ a.toList) : lines a = [a] := by
  have h2 : splitOn '\n' a.data = [a.data] := splitOn_of_not_mem _ _ h
  simp [lines, split, h2]

theorem parse_CONTAINER_FILE_CONTENT :
    parse CONTAINER_FILE_CONTENT = some
      [Node.text "# Generated with containerize-py ", Node.field "Version",
        Node.text "\nFROM python:", Node.field "PythonVersion", Node.text "-",
        Node.field "FromImage", Node.text "\nWORKDIR /app\nCOPY ", Node.field "SourcePath",
        Node.text " .\nRUN pip install --no-cache-dir -r requirements.txt\nCMD [\"python3\", \"main.py\"]\n"] := by
  rfl

theorem parse_IGNORE_FILE_CONTENT :
    parse IGNORE_FILE_CONTENT = some
      [Node.text "# Generated with containerize-py ", Node.field "Version",
        Node.text "\n# Virtual enviroments\n.venv/\nvenv/\n.env/\nenv/\n\n# Cache\n__pycache__/\n*.pyc\n*.pyo\n\n# \n",
        Node.field "ContainerFile", Node.text "\n", Node.field "IgnoreFile", Node.text "\n"] := by
  rfl

/-- The text of the build file, as a function of the configuration. -/
theorem execute_CONTAINER_FILE_CONTENT (c : Containerize) :
    (parse CONTAINER_FILE_CONTENT).map (fun t => execute t c) = some
      ("# Generated with containerize-py " ++ c.Version ++ "\n" ++
        ("FROM python:" ++ c.PythonVersion ++ "-" ++ c.FromImage ++ "\n" ++
          ("WORKDIR /app\nCOPY " ++ c.SourcePath ++
            " .\nRUN pip install --no-cache-dir -r requirements.txt\nCMD [\"python3\", \"main.py\"]\n")),
        none) := by
  rw [parse_CONTAINER_FILE_CONTENT]
  have e1 : "\nFROM python:" = "\n" ++ "FROM python:" := rfl
  have e2 : "\nWORKDIR /app\nCOPY " = "\n" ++ "WORKDIR /app\nCOPY " := rfl
  simp [execute, Containerize.lookup]
  rw [e1, e2]
  simp only [String.append_assoc]

theorem render_CONTAINER_FILE_CONTENT (c : Containerize) :
    render CONTAINER_FILE_CONTENT c = some
      ("# Generated with containerize-py " ++ c.Version ++ "\n" ++
        ("FROM python:" ++ c.PythonVersion ++ "-" ++ c.FromImage ++ "\n" ++
          ("WORKDIR /app\nCOPY " ++ c.SourcePath ++
            " .\nRUN pip install --no-cache-dir -r requirements.txt\nCMD [\"python3\", \"main.py\"]\n"))) := by
  have h := execute_CONTAINER_FILE_CONTENT c
  unfold render
  cases hp : parse CONTAINER_FILE_CONTENT with
  | none => simp [hp] at h
  | some t =>
    simp only [hp, Option.map_some', Option.some.injEq] at h ⊢
    rw [h]

/-- The text of the ignore file, as a function of the configuration. -/
theorem render_IGNORE_FILE_CONTENT (c : Containerize) :
    render IGNORE_FILE_CONTENT c = some
      ("# Generated with containerize-py " ++ c.Version ++
          "\n# Virtual enviroments\n.venv/\nvenv/\n.env/\nenv/\n\n# Cache\n__pycache__/\n*.pyc\n*.pyo\n\n# "
          ++ "\n" ++ (c.ContainerFile ++ "\n" ++ (c.IgnoreFile ++ "\n" ++ ""))) := by
  unfold render
  rw [parse_IGNORE_FILE_CONTENT]
  have e1 : "\n# Virtual enviroments\n.venv/\nvenv/\n.env/\nenv/\n\n# Cache\n__pycache__/\n*.pyc\n*.pyo\n\n# \n"
      = "\n# Virtual enviroments\n.venv/\nvenv/\n.env/\nenv/\n\n# Cache\n__pycache__/\n*.pyc\n*.pyo\n\n# "
        ++ "\n" := rfl
  simp [execute, Containerize.lookup]
  rw [e1]
  simp only [String.append_assoc, String.append_empty]

/-- C1 (as amended): when the tool version, the Python version and the base image contain no
newline, the rendered build file has as its second line exactly `FROM python:` followed by the
Python version, a hyphen and the base image. -/
theorem containerfile_second_line (c : Containerize)
    (hv : '\n' ∉ c.Version.toList) (hp : '\n' ∉ c.PythonVersion.toList)
    (hf : '\n' ∉ c.FromImage.toList) :
    ∃ text, render CONTAINER_FILE_CONTENT c = some text ∧
      (lines text)[1]? = some ("FROM python:" ++ c.PythonVersion ++ "-" ++ c.FromImage) := by
  refine ⟨_, render_CONTAINER_FILE_CONTENT c, ?_⟩
  have h1 : '\n' ∉ ("# Generated with containerize-py " ++ c.Version).toList := by
    have : '\n' ∉ "# Generated with containerize-py ".toList := by decide
    simp only [String.toList, String.data_append, List.mem_append, not_or] at *
    exact ⟨this, hv⟩
  have h2 : '\n' ∉ ("FROM python:" ++ c.PythonVersion ++ "-" ++ c.FromImage).toList := by
    have a1 : '\n' ∉ "FROM python:".toList := by decide
    have a2 : '\n' ∉ "-".toList := by decide
    simp only [String.toList, String.data_append, List.mem_append, not_or] at *
    exact ⟨⟨⟨a1, hp⟩, a2⟩, hf⟩
  rw [lines_append_nl, lines_append_nl, lines_of_not_mem _ h1, lines_of_not_mem _ h2]
  simp

/-- C1, the instance of the specification: version 3.11.4 on `alpine` gives the line
`FROM python:3.11.4-alpine`. -/
theorem containerfile_second_line_witness :
    '\n' ∉ sampleCont.Version.toList ∧ '\n' ∉ sampleCont.PythonVersion.toList ∧
      '\n' ∉ sampleCont.FromImage.toList ∧
      ∃ text, render CONTAINER_FILE_CONTENT sampleCont = some text ∧
        (lines text)[1]? = some "FROM python:3.11.4-alpine" :=
  ⟨by decide, by decide, by decide,
    containerfile_second_line sampleCont (by decide) (by decide) (by decide)⟩

/-- C1 as stated fails: with a tool version that contains a newline, and a Python version and
base image that contain none, the second line of the build file is the rest of the version, not
the `FROM` line. -/
theorem containerfile_second_line_counterexample :
    '\n' ∉ twoLineVersionCont.PythonVersion.toList ∧
      '\n' ∉ twoLineVersionCont.FromImage.toList ∧
      (render CONTAINER_FILE_CONTENT twoLineVersionCont).bind (fun text => (lines text)[1]?)
        = some "beta" ∧
      (render CONTAINER_FILE_CONTENT twoLineVersionCont).bind (fun text => (lines text)[1]?)
        ≠ some ("FROM python:" ++ twoLineVersionCont.PythonVersion ++ "-" ++
            twoLineVersionCont.FromImage) := by
  decide

/-- The rendered ignore file of any configuration that `main` constructs has a line equal to
`Containerfile` and a line equal to `.containerignore`. -/
theorem render_ignore_file_lines (env : Env) (sp op pv fi : String) :
    ∃ text,
      render IGNORE_FILE_CONTENT
        { initialCont env with
          SourcePath := sp, OutputPath := op, PythonVersion := pv, FromImage := fi } = some text ∧
      "Containerfile" ∈ lines text ∧ ".containerignore" ∈ lines text := by
  refine ⟨_, render_IGNORE_FILE_CONTENT _, ?_⟩
  have hc : '\n' ∉ CONTAINER_FILE.toList := by decide
  have hi : '\n' ∉ IGNORE_FILE.toList := by decide
  simp only [initialCont]
  rw [lines_append_nl, lines_append_nl, lines_append_nl, lines_of_not_mem _ hc,
    lines_of_not_mem _ hi]
  simp [CONTAINER_FILE, IGNORE_FILE]

/-! ## The version reported by the interpreter -/

theorem dropWhile_append_of_all (p : Char → Bool) (a b : List Char) (h : ∀ c ∈ a, p c = true) :
    (a ++ b).dropWhile p = b.dropWhile p := by
  induction a with
  | nil => rfl
  | cons c cs ih =>
    have hc : p c = true := h c (by simp)
    simp only [List.cons_append, List.dropWhile_cons, hc, if_true]
    exact ih (fun x hx => h x (by simp [hx]))

theorem dropWhile_reverse_of_last (p : Char → Bool) (v b : List Char) (hv : v ≠ [])
    (h : ∀ c ∈ v, p c = false) : (v.reverse ++ b).dropWhile p = v.reverse ++ b := by
  cases hr : v.reverse with
  | nil => exact absurd (List.reverse_eq_nil_iff.mp hr) hv
  | cons x xs =>
    have hx : p x = false := h x (by
      have : x ∈ v.reverse := by simp [hr]
      simpa using this)
    simp [List.dropWhile_cons, hx]

theorem isSpace_space : isSpace ' ' = true := by decide

/-- Trimming and splitting `Python v`, surrounded by white space, gives the pieces `Python`
and `v`. -/
theorem split_trimSpace_version (pre v post : String)
    (hpre : ∀ c ∈ pre.toList, isSpace c = true) (hpost : ∀ c ∈ post.toList, isSpace c = true)
    (hv : v ≠ "") (hvs : ∀ c ∈ v.toList, isSpace c = false) :
    split (trimSpace (pre ++ "Python " ++ v ++ post)) ' ' = ["Python", v] := by
  have hvd : v.data ≠ [] := fun e => hv (String.ext e)
  have hpre : ∀ c ∈ pre.data, isSpace c = true := hpre
  have hpost : ∀ c ∈ post.data, isSpace c = true := hpost
  have hvs : ∀ c ∈ v.data, isSpace c = false := hvs
  have hd : (pre ++ "Python " ++ v ++ post).data
      = pre.data ++ ('P' :: (['y', 't', 'h', 'o', 'n', ' '] ++ v.data ++ post.data)) := by
    simp [String.data_append]
  have hP : isSpace 'P' = false := by decide
  have h1 : (pre.data ++ ('P' :: (['y', 't', 'h', 'o', 'n', ' '] ++ v.data ++ post.data))).dropWhile
      isSpace = 'P' :: (['y', 't', 'h', 'o', 'n', ' '] ++ v.data ++ post.data) := by
    rw [dropWhile_append_of_all _ _ _ hpre]
    simp [List.dropWhile_cons, hP]
  have h2 : ('P' :: (['y', 't', 'h', 'o', 'n', ' '] ++ v.data ++ post.data)).reverse
      = post.data.reverse ++ (v.data.reverse ++ [' ', 'n', 'o', 'h', 't', 'y', 'P']) := by
    simp
  have h3 : (post.data.reverse ++ (v.data.reverse ++ [' ', 'n', 'o', 'h', 't', 'y', 'P'])).dropWhile
      isSpace = v.data.reverse ++ [' ', 'n', 'o', 'h', 't', 'y', 'P'] := by
    rw [dropWhile_append_of_all _ _ _ (fun c hc => hpost c (by simpa using hc))]
    exact dropWhile_reverse_of_last _ _ _ hvd hvs
  have h4 : (v.data.reverse ++ [' ', 'n', 'o', 'h', 't', 'y', 'P']).reverse
      = ['P', 'y', 't', 'h', 'o', 'n'] ++ ' ' :: v.data := by
    simp
  have hns : ' ' ∉ v.data := fun hm => by
    have := hvs ' ' hm
    rw [isSpace_space] at this
    exact Bool.noConfusion this
  have hnp : ' ' ∉ ['P', 'y', 't', 'h', 'o', 'n'] := by decide
  unfold split trimSpace
  rw [hd, h1, h2, h3, h4, splitOn_append_sep, splitOn_of_not_mem _ _ hnp,
    splitOn_of_not_mem _ _ hns]
  rfl

theorem execPythonVersion_events (w : World) (path : String) :
    (execPythonVersion w path).2 = [Event.exec path] := by
  unfold execPythonVersion
  split
  · rfl
  · dsimp only
    split <;> rfl

/-- C2: when the interpreter run succeeds and its output is the word `Python`, one space and a
non-empty token `v` without white space, possibly surrounded by white space, `execPythonVersion`
returns exactly `v` and no error. -/
theorem execPythonVersion_parses_version (w : World) (path pre v post : String)
    (hrun : w.run path = RunResult.output (pre ++ "Python " ++ v ++ post))
    (hpre : ∀ c ∈ pre.toList, isSpace c = true) (hpost : ∀ c ∈ post.toList, isSpace c = true)
    (hv : v ≠ "") (hvs : ∀ c ∈ v.toList, isSpace c = false) :
    (execPythonVersion w path).1 = Result.ok v := by
  unfold execPythonVersion
  simp only [hrun, split_trimSpace_version pre v post hpre hpost hv hvs]
  rfl

/-- C2, the instances of the specification: the output `Python 3.11.4` followed by a newline
gives `3.11.4`. -/
theorem execPythonVersion_parses_version_witness :
    (execPythonVersion (sampleWorld (RunResult.output "Python 3.11.4\n")) "python").1
      = Result.ok "3.11.4" :=
  execPythonVersion_parses_version (sampleWorld (RunResult.output "Python 3.11.4\n")) "python"
    "" "3.11.4" "\n" rfl (by decide) (by decide) (by decide) (by decide)

/-- C3 fails on the code: after a successful interpreter run with empty output, or with the one
word `Python`, `execPythonVersion` panics on the index 1 (it returns no error), and the whole
run ends in that panic, not in exit status 1; with the output `no version here` it returns
`version` as the Python version. -/
theorem execPythonVersion_unparseable_output :
    (execPythonVersion (sampleWorld (RunResult.output "")) "python").1
        = Result.panic "runtime error: index out of range [1] with length 1" ∧
      (execPythonVersion (sampleWorld (RunResult.output "Python\n")) "python").1
        = Result.panic "runtime error: index out of range [1] with length 1" ∧
      (main unixEnv ⟨none, ["proj"]⟩ (sampleWorld (RunResult.output ""))).outcome
        = Outcome.panicked "runtime error: index out of range [1] with length 1" ∧
      (execPythonVersion (sampleWorld (RunResult.output "no version here")) "python").1
        = Result.ok "version" := by
  decide

/-! ## Choosing the interpreter -/

theorem execsOf_execPythonVersion (w : World) (path : String) :
    execsOf (execPythonVersion w path).2 = [path] := by
  rw [execPythonVersion_events]
  rfl

theorem getPythonVersionLoop_spec (env : Env) (w : World) (projectPath : String)
    (dirs : List String) :
    (getPythonVersionLoop env w projectPath dirs).1
        = (execPythonVersion w
            (((dirs.map (pythonExecPathOf env projectPath)).find? (statOk w)).getD "python")).1 ∧
      execsOf (getPythonVersionLoop env w projectPath dirs).2
        = [((dirs.map (pythonExecPathOf env projectPath)).find? (statOk w)).getD "python"] := by
  induction dirs with
  | nil => exact ⟨rfl, execsOf_execPythonVersion w "python"⟩
  | cons d ds ih =>
    unfold getPythonVersionLoop
    cases hs : w.stat (pythonExecPathOf env projectPath d) with
    | info b =>
      have hk : statOk w (pythonExecPathOf env projectPath d) = true := by simp [statOk, hs]
      simp only [List.map_cons, List.find?_cons, hk, Option.getD_some, hs]
      simpa [execsOf] using execsOf_execPythonVersion w _
    | notExist =>
      have hk : statOk w (pythonExecPathOf env projectPath d) = false := by simp [statOk, hs]
      simp only [List.map_cons, List.find?_cons, hk, hs]
      exact ⟨ih.1, by simpa [execsOf] using ih.2⟩
    | failed b =>
      have hk : statOk w (pythonExecPathOf env projectPath d) = false := by simp [statOk, hs]
      simp only [List.map_cons, List.find?_cons, hk, hs]
      exact ⟨ih.1, by simpa [execsOf] using ih.2⟩

theorem specInterpreter_eq_find (env : Env) (w : World) (projectPath : String) :
    specInterpreter env w projectPath
      = ((envDirs.map (pythonExecPathOf env projectPath)).find? (statOk w)).getD "python" := by
  simp only [specInterpreter, envDirs, pythonExecPathOf, List.map_cons, List.map_nil,
    List.find?_cons, List.find?_nil]
  by_cases hw : env.pathSeparator = '\\' <;> simp only [hw, if_true, if_false] <;>
    split_ifs <;> simp_all

/-- C4: `getPythonVersion` runs exactly one interpreter, the one the specification names (the
interpreter path under the first of `venv`, `.venv`, `env`, `.env` for which `os.Stat` of that
path succeeds, else the bare command `python`), and its result is the result of
`execPythonVersion` on that interpreter, whether a version, an error or a panic. -/
theorem getPythonVersion_queries_first_candidate (env : Env) (w : World) (projectPath : String) :
    (getPythonVersion env w projectPath).1
        = (execPythonVersion w (specInterpreter env w projectPath)).1 ∧
      execsOf (getPythonVersion env w projectPath).2 = [specInterpreter env w projectPath] := by
  rw [specInterpreter_eq_find]
  exact getPythonVersionLoop_spec env w projectPath envDirs

/-! ## The command line and the checks of `main` -/

/-- C6: with one positional argument `a` the resolved configuration has source path and output
path `a`; with two, `a` and `b`, it has source path `a` and output path `b`; the base image is
`alpine` when `--from` is not given (and the given value otherwise). -/
theorem resolveArgs_paths_and_image (env : Env) (a b g : String) :
    resolveArgs env ⟨none, [a]⟩
        = some ⟨env.version, a, a, "", "alpine", CONTAINER_FILE, IGNORE_FILE⟩ ∧
      resolveArgs env ⟨none, [a, b]⟩
        = some ⟨env.version, a, b, "", "alpine", CONTAINER_FILE, IGNORE_FILE⟩ ∧
      resolveArgs env ⟨some g, [a]⟩
        = some ⟨env.version, a, a, "", g, CONTAINER_FILE, IGNORE_FILE⟩ ∧
      resolveArgs env ⟨some g, [a, b]⟩
        = some ⟨env.version, a, b, "", g, CONTAINER_FILE, IGNORE_FILE⟩ := by
  simp [resolveArgs, initialCont]

theorem resolveArgs_eq_none_iff (env : Env) (inv : Invocation) :
    resolveArgs env inv = none ↔ (inv.args.length < 1 ∨ 2 < inv.args.length) := by
  unfold resolveArgs
  simp only [gt_iff_lt]
  split_ifs with h
  · exact ⟨fun _ => h, fun _ => rfl⟩
  · exact ⟨fun e => by simp at e, fun h2 => absurd h2 h⟩

set_option maxRecDepth 1000000 in
theorem parse_NOPARAM_MSG :
    parse NOPARAM_MSG = some
      [Node.text "containerize-py ", Node.field "Version", Node.text "\nCreates the ",
        Node.field "ContainerFile", Node.text " and ", Node.field "IgnoreFile",
        Node.text (" from a python project.\n" ++
          "This files can be used to create/launch a Container with docker or podman.\n" ++
          "Syntax:\n" ++
          "   containerize-py [--from=python_image] <project_dir> [output_dir]\n" ++
          "\n" ++
          "--from=python_image : By default the image is alpine. There are more available, some are:\n" ++
          " \n" ++
          "  · alpine: The lighest, but can lead to compatibility issues with glibc libraries dependent. Popular libraries (e.g., pandas, numpy, scipy) may need manual compilation due to native dependencies.\n" ++
          "  · slim-bookworm: Good for new projects.\n" ++
          "  · slim-bullseye: For production projects requiring stability.\n" ++
          "  · slim-buster: Is end of support. Maybe good for some very old projects.\n" ++
          "\n" ++
          "<project_dir> : Your python project location\n" ++
          "\n" ++
          "[output_dir]  : Container files location. If empty use same place as project.\n" ++
          "\n" ++
          "If there is any virtual enviroment directory the python version of that enviroment will be used, if not, the system version instead.\n")] := by
  decide

set_option maxRecDepth 1000000 in
/-- The function `flag.Usage` prints the usage message with the tool version filled in. -/
theorem usage_eq_usageText (env : Env) : usage env = some (usageText env.version) := by
  unfold usage render
  rw [parse_NOPARAM_MSG]
  have l1 : (initialCont env).lookup "Version" = some env.version := rfl
  have l2 : (initialCont env).lookup "ContainerFile" = some CONTAINER_FILE := rfl
  have l3 : (initialCont env).lookup "IgnoreFile" = some IGNORE_FILE := rfl
  simp only [Option.map_some', execute, l1, l2, l3, usageText, String.append_assoc]
  refine congrArg (fun t => some ("containerize-py " ++ (env.version ++ t))) ?_
  decide

/-- A run that got past the count of the arguments made at least one system call. -/
theorem main_trace_ne_nil (env : Env) (inv : Invocation) (w : World) (cont : Containerize)
    (hc : resolveArgs env inv = some cont) : (main env inv w).trace ≠ [] := by
  unfold main
  simp only [hc]
  split_ifs <;> (repeat' split) <;> simp

/-- C7: the usage-error path (exactly the usage message of `NOPARAM_MSG`, with the tool version
filled in, on standard error; exit status 1; no system call, so no check of the file system and
no file written; state unchanged) is taken exactly when the number of positional arguments is
not 1 or 2. -/
theorem usage_error_iff_bad_arg_count (env : Env) (inv : Invocation) (w : World) :
    usageErrorPath env w (main env inv w) ↔ (inv.args.length < 1 ∨ 2 < inv.args.length) := by
  constructor
  · intro h
    by_contra hn
    cases hc : resolveArgs env inv with
    | none => exact hn ((resolveArgs_eq_none_iff env inv).mp hc)
    | some cont => exact main_trace_ne_nil env inv w cont hc h.2.2.2.1
  · intro h
    have hc := (resolveArgs_eq_none_iff env inv).mpr h
    unfold usageErrorPath main
    simp [hc, usage_eq_usageText env]

/-- C8 (as amended): with valid arguments, source and output paths that `os.Stat` reports as
directories, and `requirements.txt` under the source directory reported by `os.Stat` as not
existing (`os.ErrNotExist`), the run prints `NOREQUIREMENTS_MSG` on standard error and exits
with status 1; its only system calls are the three `os.Stat` checks (no interpreter is probed
or run, no file is created), and the state is unchanged. -/
theorem missing_requirements_exits (env : Env) (inv : Invocation) (w : World)
    (cont : Containerize) (hc : resolveArgs env inv = some cont)
    (hs : w.stat cont.SourcePath = StatResult.info true)
    (ho : w.stat cont.OutputPath = StatResult.info true)
    (hr : w.stat (env.join [cont.SourcePath, "requirements.txt"]) = StatResult.notExist) :
    (main env inv w).outcome = Outcome.exited 1 ∧
      (main env inv w).stderr = NOREQUIREMENTS_MSG ∧
      (main env inv w).trace
        = [Event.stat cont.SourcePath, Event.stat cont.OutputPath,
            Event.stat (env.join [cont.SourcePath, "requirements.txt"])] ∧
      execsOf (main env inv w).trace = [] ∧
      (main env inv w).world = w := by
  unfold main
  simp [hc, isDirectory, fileExists, hs, ho, hr, execsOf]

/-- C8, an instance: a project directory without `requirements.txt`. -/
theorem missing_requirements_exits_witness :
    (main unixEnv ⟨none, ["proj"]⟩ (projectWorld ["proj/main.py"] (RunResult.failed ""))).outcome
        = Outcome.exited 1 ∧
      (main unixEnv ⟨none, ["proj"]⟩ (projectWorld ["proj/main.py"] (RunResult.failed ""))).stderr
        = NOREQUIREMENTS_MSG :=
  have h := missing_requirements_exits unixEnv ⟨none, ["proj"]⟩
    (projectWorld ["proj/main.py"] (RunResult.failed ""))
    ⟨"[unknown]", "proj", "proj", "", "alpine", CONTAINER_FILE, IGNORE_FILE⟩
    (by decide) (by decide) (by decide) (by decide)
  ⟨h.1, h.2.1⟩

set_option maxRecDepth 100000 in
/-- C8 as stated fails: the source and output paths are directories and `requirements.txt`
does not exist, but the source directory cannot be searched, so `os.Stat` of
`proj/requirements.txt` fails with an error other than `os.ErrNotExist` and `fileExists`
answers true.  The run prints nothing on standard error, runs `python`, writes both files and
ends with status 0. -/
theorem missing_requirements_exits_counterexample :
    isDirectory (unsearchableWorld [] (RunResult.output "Python 3.12.0\n")) "proj" = true ∧
      isDirectory (unsearchableWorld [] (RunResult.output "Python 3.12.0\n")) "out" = true ∧
      pathExists (unsearchableWorld [] (RunResult.output "Python 3.12.0\n"))
        (unixEnv.join ["proj", "requirements.txt"]) = false ∧
      (main unixEnv ⟨none, ["proj", "out"]⟩
        (unsearchableWorld [] (RunResult.output "Python 3.12.0\n"))).outcome
        = Outcome.exited 0 ∧
      (main unixEnv ⟨none, ["proj", "out"]⟩
        (unsearchableWorld [] (RunResult.output "Python 3.12.0\n"))).stderr = "" ∧
      (main unixEnv ⟨none, ["proj", "out"]⟩
        (unsearchableWorld [] (RunResult.output "Python 3.12.0\n"))).stderr
        ≠ NOREQUIREMENTS_MSG ∧
      execsOf (main unixEnv ⟨none, ["proj", "out"]⟩
        (unsearchableWorld [] (RunResult.output "Python 3.12.0\n"))).trace = ["python"] ∧
      (unsearchableWorld [] (RunResult.output "Python 3.12.0\n")).content "out/Containerfile"
        = none ∧
      (main unixEnv ⟨none, ["proj", "out"]⟩
        (unsearchableWorld [] (RunResult.output "Python 3.12.0\n"))).world.content
          "out/Containerfile"
        = some ("# Generated with containerize-py [unknown]\nFROM python:3.12.0-alpine\n" ++
            "WORKDIR /app\nCOPY proj .\n" ++
            "RUN pip install --no-cache-dir -r requirements.txt\nCMD [\"python3\", \"main.py\"]\n") := by
  decide

/-- C9 (as amended): with valid arguments, source and output paths that `os.Stat` reports as
directories, `requirements.txt` not reported by `os.Stat` as not existing (it exists, or
`os.Stat` fails with another error), and `main.py` reported by `os.Stat` as not existing
(`os.ErrNotExist`), the run prints `NOMAINPY_MSG` on standard error and exits with status 1; it
makes four `os.Stat` checks, creates no file, and the state after the run equals the state
before it. -/
theorem missing_main_py_exits (env : Env) (inv : Invocation) (w : World)
    (cont : Containerize) (hc : resolveArgs env inv = some cont)
    (hs : w.stat cont.SourcePath = StatResult.info true)
    (ho : w.stat cont.OutputPath = StatResult.info true)
    (hr : w.stat (env.join [cont.SourcePath, "requirements.txt"]) ≠ StatResult.notExist)
    (hm : w.stat (env.join [cont.SourcePath, "main.py"]) = StatResult.notExist) :
    (main env inv w).outcome = Outcome.exited 1 ∧
      (main env inv w).stderr = NOMAINPY_MSG ∧
      (main env inv w).trace
        = [Event.stat cont.SourcePath, Event.stat cont.OutputPath,
            Event.stat (env.join [cont.SourcePath, "requirements.txt"]),
            Event.stat (env.join [cont.SourcePath, "main.py"])] ∧
      (main env inv w).world = w := by
  have hr2 : fileExists w (env.join [cont.SourcePath, "requirements.txt"]) = true := by
    unfold fileExists
    split
    · next h => exact absurd h hr
    · rfl
  unfold main
  simp [hc, isDirectory, hs, ho, hr2]
  simp [fileExists, hm]

/-- C9, an instance: a project directory with `requirements.txt` and without `main.py`. -/
theorem missing_main_py_exits_witness :
    (main unixEnv ⟨none, ["proj"]⟩
        (projectWorld ["proj/requirements.txt"] (RunResult.failed ""))).outcome
        = Outcome.exited 1 ∧
      (main unixEnv ⟨none, ["proj"]⟩
        (projectWorld ["proj/requirements.txt"] (RunResult.failed ""))).stderr
        = NOMAINPY_MSG :=
  have h := missing_main_py_exits unixEnv ⟨none, ["proj"]⟩
    (projectWorld ["proj/requirements.txt"] (RunResult.failed ""))
    ⟨"[unknown]", "proj", "proj", "", "alpine", CONTAINER_FILE, IGNORE_FILE⟩
    (by decide) (by decide) (by decide) (by decide) (by decide)
  ⟨h.1, h.2.1⟩

set_option maxRecDepth 100000 in
/-- C9 as stated fails: the source and output paths are directories, `requirements.txt` exists
and `main.py` does not, but the source directory cannot be searched, so `os.Stat` of
`proj/main.py` fails with an error other than `os.ErrNotExist` and `fileExists` answers true.
The run prints nothing on standard error, writes both files and ends with status 0. -/
theorem missing_main_py_exits_counterexample :
    isDirectory (unsearchableWorld ["proj/requirements.txt"]
        (RunResult.output "Python 3.12.0\n")) "proj" = true ∧
      isDirectory (unsearchableWorld ["proj/requirements.txt"]
        (RunResult.output "Python 3.12.0\n")) "out" = true ∧
      pathExists (unsearchableWorld ["proj/requirements.txt"]
        (RunResult.output "Python 3.12.0\n")) (unixEnv.join ["proj", "requirements.txt"])
        = true ∧
      pathExists (unsearchableWorld ["proj/requirements.txt"]
        (RunResult.output "Python 3.12.0\n")) (unixEnv.join ["proj", "main.py"]) = false ∧
      (main unixEnv ⟨none, ["proj", "out"]⟩
        (unsearchableWorld ["proj/requirements.txt"] (RunResult.output "Python 3.12.0\n"))).outcome
        = Outcome.exited 0 ∧
      (main unixEnv ⟨none, ["proj", "out"]⟩
        (unsearchableWorld ["proj/requirements.txt"] (RunResult.output "Python 3.12.0\n"))).stderr
        = "" ∧
      (main unixEnv ⟨none, ["proj", "out"]⟩
        (unsearchableWorld ["proj/requirements.txt"] (RunResult.output "Python 3.12.0\n"))).stderr
        ≠ NOMAINPY_MSG ∧
      (unsearchableWorld ["proj/requirements.txt"]
        (RunResult.output "Python 3.12.0\n")).content "out/.containerignore" = none ∧
      ((main unixEnv ⟨none, ["proj", "out"]⟩
        (unsearchableWorld ["proj/requirements.txt"]
          (RunResult.output "Python 3.12.0\n"))).world.content "out/.containerignore").isSome
        = true := by
  decide

/-! ## Running the tool twice -/

theorem writeFileWithTemplate_error_congr (w w2 : World) (path : String) (t : List Node)
    (c : Containerize) (h1 : w2.createErr = w.createErr) (h2 : w2.writeFault = w.writeFault) :
    (writeFileWithTemplate w2 path t c).1 = (writeFileWithTemplate w path t c).1 := by
  unfold writeFileWithTemplate
  rw [h1, h2]
  cases w.createErr path with
  | some e => rfl
  | none =>
    dsimp only
    cases w.writeFault path with
    | none => rfl
    | some ne =>
      dsimp only
      split_ifs <;> rfl

theorem writeFileWithTemplate_world (w : World) (path : String) (t : List Node)
    (c : Containerize) (h : (writeFileWithTemplate w path t c).1 = none) :
    (writeFileWithTemplate w path t c).2 = w.setFile path (execute t c).1 := by
  unfold writeFileWithTemplate at h ⊢
  cases hc : w.createErr path with
  | some e => simp [hc] at h
  | none =>
    simp only [hc] at h ⊢
    cases hf : w.writeFault path with
    | none => rfl
    | some ne =>
      simp only [hf] at h ⊢
      split_ifs at h ⊢ with hlt
      rfl

theorem execPythonVersion_congr (w w2 : World) (path : String) (h : w2.run = w.run) :
    execPythonVersion w2 path = execPythonVersion w path := by
  unfold execPythonVersion
  rw [h]

theorem getPythonVersionLoop_congr (env : Env) (w w2 : World) (projectPath : String)
    (dirs : List String) (hrun : w2.run = w.run)
    (hstat : ∀ p ∈ dirs.map (pythonExecPathOf env projectPath), w2.stat p = w.stat p) :
    getPythonVersionLoop env w2 projectPath dirs = getPythonVersionLoop env w projectPath dirs := by
  induction dirs with
  | nil => exact execPythonVersion_congr w w2 "python" hrun
  | cons d ds ih =>
    unfold getPythonVersionLoop
    have hd : w2.stat (pythonExecPathOf env projectPath d)
        = w.stat (pythonExecPathOf env projectPath d) := hstat _ (by simp)
    have ih2 := ih (fun p hp => hstat p (by simp at hp ⊢; exact Or.inr hp))
    simp only [hd, ih2, execPythonVersion_congr w w2 _ hrun]

theorem setFile_stat_of_ne (w : World) (path text p : String) (h : p ≠ path) :
    (w.setFile path text).stat p = w.stat p := by
  simp [World.setFile, h]

/-- What a successful run establishes: the checks passed, a version was found and both writes
succeeded. -/
theorem main_success_checks (env : Env) (inv : Invocation) (w : World) (cont : Containerize)
    (t1 t2 : List Node) (hc : resolveArgs env inv = some cont)
    (ht1 : parse IGNORE_FILE_CONTENT = some t1) (ht2 : parse CONTAINER_FILE_CONTENT = some t2)
    (h : (main env inv w).outcome = Outcome.exited 0) :
    isDirectory w cont.SourcePath = true ∧ isDirectory w cont.OutputPath = true ∧
      fileExists w (env.join [cont.SourcePath, "requirements.txt"]) = true ∧
      fileExists w (env.join [cont.SourcePath, "main.py"]) = true ∧
      ∃ v, (getPythonVersion env w cont.SourcePath).1 = Result.ok v ∧
        (writeFileWithTemplate w (env.join [cont.OutputPath, cont.IgnoreFile]) t1
          { cont with PythonVersion := v }).1 = none ∧
        (writeFileWithTemplate
          (writeFileWithTemplate w (env.join [cont.OutputPath, cont.IgnoreFile]) t1
            { cont with PythonVersion := v }).2
          (env.join [cont.OutputPath, cont.ContainerFile]) t2
          { cont with PythonVersion := v }).1 = none := by
  unfold main at h
  simp only [hc, ht1, ht2] at h
  split_ifs at h with a b c d
  · simp at h
  · simp at h
  · simp at h
  · simp at h
  · refine ⟨by simpa using a, by simpa using b, by simpa using c, by simpa using d, ?_⟩
    split at h
    · simp at h
    · simp at h
    · next v hv =>
      refine ⟨v, hv, ?_⟩
      split at h
      · simp at h
      · next e1 =>
        refine ⟨e1, ?_⟩
        split at h
        · simp at h
        · next e2 => exact e2

/-- The outcome and final state of a run whose checks pass, whose interpreter reports a version
and whose two writes succeed. -/
theorem main_of_checks (env : Env) (inv : Invocation) (w : World) (cont : Containerize)
    (t1 t2 : List Node) (v : String) (hc : resolveArgs env inv = some cont)
    (ht1 : parse IGNORE_FILE_CONTENT = some t1) (ht2 : parse CONTAINER_FILE_CONTENT = some t2)
    (hs : isDirectory w cont.SourcePath = true) (ho : isDirectory w cont.OutputPath = true)
    (hr : fileExists w (env.join [cont.SourcePath, "requirements.txt"]) = true)
    (hm : fileExists w (env.join [cont.SourcePath, "main.py"]) = true)
    (hv : (getPythonVersion env w cont.SourcePath).1 = Result.ok v)
    (e1 : (writeFileWithTemplate w (env.join [cont.OutputPath, cont.IgnoreFile]) t1
          { cont with PythonVersion := v }).1 = none)
    (e2 : (writeFileWithTemplate
          (writeFileWithTemplate w (env.join [cont.OutputPath, cont.IgnoreFile]) t1
            { cont with PythonVersion := v }).2
          (env.join [cont.OutputPath, cont.ContainerFile]) t2
          { cont with PythonVersion := v }).1 = none) :
    (main env inv w).outcome = Outcome.exited 0 ∧
      (main env inv w).world =
        (writeFileWithTemplate
          (writeFileWithTemplate w (env.join [cont.OutputPath, cont.IgnoreFile]) t1
            { cont with PythonVersion := v }).2
          (env.join [cont.OutputPath, cont.ContainerFile]) t2
          { cont with PythonVersion := v }).2 := by
  unfold main
  simp only [hc, ht1, ht2, hs, ho, hr, hm, hv, e1, e2]
  simp

/-- C10: when a run succeeds and the two files it writes are not among the paths its checks
consult (so the second run meets the same prerequisites and the same interpreter output), a
second run with the same command line on the state the first run left succeeds too and leaves
every file content, in particular `Containerfile` and `.containerignore`, exactly as the first
run left it, whatever the files held before the first run; the build file holds the rendered
template, a function of the configuration only. -/
theorem rerun_idempotent (env : Env) (inv : Invocation) (w : World) (cont : Containerize)
    (hc : resolveArgs env inv = some cont)
    (h1 : (main env inv w).outcome = Outcome.exited 0)
    (hd : ∀ p ∈ probedPaths env cont, p ∉ writtenPaths env cont) :
    (main env inv (main env inv w).world).outcome = Outcome.exited 0 ∧
      (main env inv (main env inv w).world).world.content = (main env inv w).world.content ∧
      ∃ v, (getPythonVersion env w cont.SourcePath).1 = Result.ok v ∧
        (main env inv w).world.content (env.join [cont.OutputPath, cont.ContainerFile])
          = render CONTAINER_FILE_CONTENT { cont with PythonVersion := v } := by
  have ht1 := parse_IGNORE_FILE_CONTENT
  have ht2 := parse_CONTAINER_FILE_CONTENT
  obtain ⟨hs, ho, hr, hm, v, hv, e1, e2⟩ := main_success_checks env inv w cont _ _ hc ht1 ht2 h1
  have hw := (main_of_checks env inv w cont _ _ v hc ht1 ht2 hs ho hr hm hv e1 e2).2
  have hstat : ∀ p ∈ probedPaths env cont, (main env inv w).world.stat p = w.stat p := by
    intro p hp
    have hn := hd p hp
    simp only [writtenPaths, List.mem_cons, List.mem_singleton, List.not_mem_nil, or_false,
      not_or] at hn
    rw [hw, writeFileWithTemplate_world _ _ _ _ e2, writeFileWithTemplate_world _ _ _ _ e1,
      setFile_stat_of_ne _ _ _ _ hn.2, setFile_stat_of_ne _ _ _ _ hn.1]
  have hrun : (main env inv w).world.run = w.run := by
    rw [hw, writeFileWithTemplate_world _ _ _ _ e2, writeFileWithTemplate_world _ _ _ _ e1]
    rfl
  have hce : (main env inv w).world.createErr = w.createErr := by
    rw [hw, writeFileWithTemplate_world _ _ _ _ e2, writeFileWithTemplate_world _ _ _ _ e1]
    rfl
  have hwf : (main env inv w).world.writeFault = w.writeFault := by
    rw [hw, writeFileWithTemplate_world _ _ _ _ e2, writeFileWithTemplate_world _ _ _ _ e1]
    rfl
  have hs2 : isDirectory (main env inv w).world cont.SourcePath = true := by
    unfold isDirectory at hs ⊢
    rw [hstat _ (by simp [probedPaths])]
    exact hs
  have ho2 : isDirectory (main env inv w).world cont.OutputPath = true := by
    unfold isDirectory at ho ⊢
    rw [hstat _ (by simp [probedPaths])]
    exact ho
  have hr2 : fileExists (main env inv w).world (env.join [cont.SourcePath, "requirements.txt"])
      = true := by
    unfold fileExists at hr ⊢
    rw [hstat _ (by simp [probedPaths])]
    exact hr
  have hm2 : fileExists (main env inv w).world (env.join [cont.SourcePath, "main.py"])
      = true := by
    unfold fileExists at hm ⊢
    rw [hstat _ (by simp [probedPaths])]
    exact hm
  have hv2 : (getPythonVersion env (main env inv w).world cont.SourcePath).1 = Result.ok v := by
    unfold getPythonVersion at hv ⊢
    rw [getPythonVersionLoop_congr env w _ _ _ hrun
      (fun p hp => hstat p (by simp only [probedPaths, List.mem_append]; exact Or.inr hp))]
    exact hv
  have e1b := e1
  rw [← writeFileWithTemplate_error_congr w (main env inv w).world _ _ _ hce hwf] at e1b
  have e2b := e2
  rw [writeFileWithTemplate_world _ _ _ _ e1,
    ← writeFileWithTemplate_error_congr (w.setFile _ _)
      ((main env inv w).world.setFile (env.join [cont.OutputPath, cont.IgnoreFile]) _) _ _ _
      (show (World.setFile _ _ _).createErr = (World.setFile _ _ _).createErr from hce)
      (show (World.setFile _ _ _).writeFault = (World.setFile _ _ _).writeFault from hwf),
    ← writeFileWithTemplate_world _ _ _ _ e1b] at e2b
  have h2 := main_of_checks env inv (main env inv w).world cont _ _ v hc ht1 ht2 hs2 ho2 hr2 hm2
    hv2 e1b e2b
  refine ⟨h2.1, ?_, v, hv, ?_⟩
  · rw [h2.2, writeFileWithTemplate_world _ _ _ _ e2b, writeFileWithTemplate_world _ _ _ _ e1b]
    conv_rhs => rw [hw, writeFileWithTemplate_world _ _ _ _ e2,
      writeFileWithTemplate_world _ _ _ _ e1]
    conv_lhs => rw [hw, writeFileWithTemplate_world _ _ _ _ e2,
      writeFileWithTemplate_world _ _ _ _ e1]
    funext p
    simp only [World.setFile]
    split_ifs <;> rfl
  · rw [hw, writeFileWithTemplate_world _ _ _ _ e2]
    simp [World.setFile, render, ht2]

/-- C10, an instance: two runs on a project whose interpreter reports Python 3.11.4; the second
run succeeds and both generated files are as the first run left them. -/
theorem rerun_idempotent_witness :
    (main unixEnv ⟨none, ["proj"]⟩
        (main unixEnv ⟨none, ["proj"]⟩
          (sampleWorld (RunResult.output "Python 3.11.4\n"))).world).outcome
        = Outcome.exited 0 ∧
      (main unixEnv ⟨none, ["proj"]⟩
        (main unixEnv ⟨none, ["proj"]⟩
          (sampleWorld (RunResult.output "Python 3.11.4\n"))).world).world.content
          "proj/Containerfile"
        = (main unixEnv ⟨none, ["proj"]⟩
            (sampleWorld (RunResult.output "Python 3.11.4\n"))).world.content
            "proj/Containerfile" ∧
      (main unixEnv ⟨none, ["proj"]⟩
        (main unixEnv ⟨none, ["proj"]⟩
          (sampleWorld (RunResult.output "Python 3.11.4\n"))).world).world.content
          "proj/.containerignore"
        = (main unixEnv ⟨none, ["proj"]⟩
            (sampleWorld (RunResult.output "Python 3.11.4\n"))).world.content
            "proj/.containerignore" :=
  have h := rerun_idempotent unixEnv ⟨none, ["proj"]⟩
    (sampleWorld (RunResult.output "Python 3.11.4\n"))
    ⟨"[unknown]", "proj", "proj", "", "alpine", CONTAINER_FILE, IGNORE_FILE⟩
    (by decide) (by decide) (by decide)
  ⟨h.1, congrFun h.2.1 "proj/Containerfile", congrFun h.2.1 "proj/.containerignore"⟩

/-! ## The ignore file that `main` writes -/

theorem create_not_mem_getPythonVersionLoop (env : Env) (w : World) (projectPath q : String)
    (dirs : List String) :
    Event.create q ∉ (getPythonVersionLoop env w projectPath dirs).2 := by
  induction dirs with
  | nil =>
    unfold getPythonVersionLoop
    rw [execPythonVersion_events]
    simp
  | cons d ds ih =>
    unfold getPythonVersionLoop
    cases hs : w.stat (pythonExecPathOf env projectPath d) with
    | info b => simp [hs, execPythonVersion_events]
    | notExist => simpa [hs] using ih
    | failed b => simpa [hs] using ih

theorem writeFileWithTemplate_content_of_ne (w : World) (path q : String) (t : List Node)
    (c : Containerize) (h : q ≠ path) :
    (writeFileWithTemplate w path t c).2.content q = w.content q := by
  unfold writeFileWithTemplate
  cases w.createErr path with
  | some e => rfl
  | none =>
    dsimp only
    cases w.writeFault path with
    | none => simp [World.setFile, h]
    | some ne =>
      dsimp only
      split_ifs <;> simp [World.setFile, h]

theorem resolveArgs_files (env : Env) (inv : Invocation) (cont : Containerize)
    (hc : resolveArgs env inv = some cont) :
    cont = { initialCont env with
      SourcePath := cont.SourcePath, OutputPath := cont.OutputPath,
      PythonVersion := "", FromImage := cont.FromImage } := by
  unfold resolveArgs at hc
  dsimp only at hc
  split_ifs at hc <;>
  · simp only [Option.some.injEq] at hc
    subst hc
    rfl

/-- A run whose trace shows the creation of the build file found a Python version and wrote
the ignore file without error. -/
theorem main_reached_container_write (env : Env) (inv : Invocation) (w : World)
    (cont : Containerize) (t1 t2 : List Node) (hc : resolveArgs env inv = some cont)
    (ht1 : parse IGNORE_FILE_CONTENT = some t1) (ht2 : parse CONTAINER_FILE_CONTENT = some t2)
    (hreach : Event.create (env.join [cont.OutputPath, cont.ContainerFile])
      ∈ (main env inv w).trace)
    (hne : env.join [cont.OutputPath, cont.IgnoreFile]
      ≠ env.join [cont.OutputPath, cont.ContainerFile]) :
    ∃ v, (getPythonVersion env w cont.SourcePath).1 = Result.ok v ∧
      (writeFileWithTemplate w (env.join [cont.OutputPath, cont.IgnoreFile]) t1
        { cont with PythonVersion := v }).1 = none ∧
      (main env inv w).world =
        (writeFileWithTemplate
          (writeFileWithTemplate w (env.join [cont.OutputPath, cont.IgnoreFile]) t1
            { cont with PythonVersion := v }).2
          (env.join [cont.OutputPath, cont.ContainerFile]) t2
          { cont with PythonVersion := v }).2 := by
  have hg : Event.create (env.join [cont.OutputPath, cont.ContainerFile])
      ∉ (getPythonVersion env w cont.SourcePath).2 :=
    create_not_mem_getPythonVersionLoop env w _ _ envDirs
  unfold main at hreach ⊢
  simp only [hc, ht1, ht2] at hreach ⊢
  split_ifs at hreach ⊢ with a b c d
  · simp at hreach
  · simp at hreach
  · simp at hreach
  · simp at hreach
  · cases hv : (getPythonVersion env w cont.SourcePath).1 with
    | panic m => simp [hv, hg] at hreach
    | err e => simp [hv, hg] at hreach
    | ok v =>
      simp only [hv] at hreach ⊢
      cases e1 : (writeFileWithTemplate w (env.join [cont.OutputPath, cont.IgnoreFile]) t1
          { cont with PythonVersion := v }).1 with
      | some e =>
        simp only [e1] at hreach
        simp [hg, Ne.symm hne] at hreach
      | none =>
        refine ⟨v, rfl, e1, ?_⟩
        simp only [e1]
        split <;> rfl

/-- C5: for every configuration that `main` constructs (any tool version, source path, output
path, Python version and base image) the rendered ignore file has a line equal to
`Containerfile` and a line equal to `.containerignore`; and in every run that goes on to create
the build file (the write of the ignore file ended without error), the file
`.containerignore` that `main` left in the output directory holds exactly that rendered text,
with these two lines. -/
theorem ignore_file_lists_generated_files (env : Env) (inv : Invocation) (w : World)
    (cont : Containerize) (hc : resolveArgs env inv = some cont)
    (hreach : Event.create (env.join [cont.OutputPath, CONTAINER_FILE]) ∈ (main env inv w).trace)
    (hne : env.join [cont.OutputPath, IGNORE_FILE] ≠ env.join [cont.OutputPath, CONTAINER_FILE]) :
    (∀ (e : Env) (sp op pv fi : String), ∃ text,
        render IGNORE_FILE_CONTENT
          { initialCont e with
            SourcePath := sp, OutputPath := op, PythonVersion := pv, FromImage := fi }
          = some text ∧
        "Containerfile" ∈ lines text ∧ ".containerignore" ∈ lines text) ∧
      ∃ v text, (getPythonVersion env w cont.SourcePath).1 = Result.ok v ∧
        render IGNORE_FILE_CONTENT { cont with PythonVersion := v } = some text ∧
        (main env inv w).world.content (env.join [cont.OutputPath, IGNORE_FILE]) = some text ∧
        "Containerfile" ∈ lines text ∧ ".containerignore" ∈ lines text := by
  refine ⟨render_ignore_file_lines, ?_⟩
  have hf := resolveArgs_files env inv cont hc
  have hcf : cont.ContainerFile = CONTAINER_FILE := by rw [hf]; rfl
  have hif : cont.IgnoreFile = IGNORE_FILE := by rw [hf]; rfl
  have ht1 := parse_IGNORE_FILE_CONTENT
  have ht2 := parse_CONTAINER_FILE_CONTENT
  rw [← hcf] at hreach
  rw [← hcf, ← hif] at hne
  obtain ⟨v, hv, e1, hw⟩ := main_reached_container_write env inv w cont _ _ hc ht1 ht2 hreach hne
  obtain ⟨text, hr, hl⟩ := render_ignore_file_lines env cont.SourcePath cont.OutputPath v
    cont.FromImage
  have hcv : ({ cont with PythonVersion := v } : Containerize)
      = { initialCont env with
          SourcePath := cont.SourcePath, OutputPath := cont.OutputPath, PythonVersion := v,
          FromImage := cont.FromImage } := by
    conv_lhs => rw [hf]
  refine ⟨v, text, hv, by rw [hcv]; exact hr, ?_, hl⟩
  rw [hw, ← hif, writeFileWithTemplate_content_of_ne _ _ _ _ _ hne,
    writeFileWithTemplate_world _ _ _ _ e1]
  have hr2 := hr
  rw [← hcv] at hr2
  simp only [render, ht1, Option.map_some', Option.some.injEq] at hr2
  simp [World.setFile, hr2]

/-- C5, an instance: the run on the sample project leaves an ignore file that lists both
generated files. -/
theorem ignore_file_lists_generated_files_witness :
    ∃ text,
      (main unixEnv ⟨none, ["proj"]⟩
        (sampleWorld (RunResult.output "Python 3.11.4\n"))).world.content "proj/.containerignore"
        = some text ∧
      "Containerfile" ∈ lines text ∧ ".containerignore" ∈ lines text :=
  have h := ignore_file_lists_generated_files unixEnv ⟨none, ["proj"]⟩
    (sampleWorld (RunResult.output "Python 3.11.4\n"))
    ⟨"[unknown]", "proj", "proj", "", "alpine", CONTAINER_FILE, IGNORE_FILE⟩
    (by decide) (by decide) (by decide)
  match h.2 with
  | ⟨_, text, _, _, hcontent, hl⟩ => ⟨text, hcontent, hl⟩

end ContainerizePy
